import Mathlib

/-!
Verification of the PennyLane Honeywell plugin (`pennylane_honeywell/device.py`
and the earlier fork `pennylane_hqs/device.py`) against its natural-language
specification.  The Python code is shallowly embedded: pure computations become
Lean functions, the effectful credential state machine becomes explicit state
passing with a trace of network calls, HTTP responses and JWT decoding are
modelled as explicit inputs, and exceptions become `Except` / sum-like return
values.
-/

namespace HQS

/-! ## Sample generation (`HQSDevice.generate_samples`)

`pennylane_honeywell/device.py` lines 489-492:

    int_values = [int(x, 2) for x in self._results]
    samples_array = np.stack(np.unravel_index(int_values, [2] * self.num_wires)).T
    return samples_array

`pennylane_hqs/device.py` lines 219-223 are identical except the parse is
`int(x)` (base 10).  `int(s, b)` raises `ValueError` unless `s` is a nonempty
string of digits of base `b`; `np.unravel_index` raises unless every index is
below the product of the shape, and with shape `[2] * w` (C order) it emits the
`w` binary digits of the index, most significant first. -/

/-- Numeric value of a binary digit character (only applied to '0'/'1'). -/
def bitVal (c : Char) : Nat := if c = '1' then 1 else 0

/-- Whether a character is accepted by Python `int(x, 2)`. -/
def isBitChar (c : Char) : Bool := c = '0' || c = '1'

/-- Whether a character is accepted by Python `int(x)` (base 10). -/
def isDigitChar (c : Char) : Bool := decide ('0' ≤ c) && decide (c ≤ '9')

/-- Numeric value of a decimal digit character. -/
def digVal (c : Char) : Nat := c.toNat - '0'.toNat

/-- Accumulating base-2 read of a digit list (semantics of `int(x, 2)`). -/
def parseBinList (acc : Nat) : List Char → Nat
  | [] => acc
  | c :: cs => parseBinList (2 * acc + bitVal c) cs

/-- Accumulating base-10 read of a digit list (semantics of `int(x)`). -/
def parseDecList (acc : Nat) : List Char → Nat
  | [] => acc
  | c :: cs => parseDecList (10 * acc + digVal c) cs

/-- Python `int(x, 2)`: `none` models the `ValueError` on the empty string or a
non-binary character. -/
def int_base2 (s : String) : Option Nat :=
  if !s.data.isEmpty && s.data.all isBitChar then some (parseBinList 0 s.data)
  else none

/-- Python `int(x)`: `none` models the `ValueError` on the empty string or a
non-decimal character. -/
def int_base10 (s : String) : Option Nat :=
  if !s.data.isEmpty && s.data.all isDigitChar then some (parseDecList 0 s.data)
  else none

/-- `np.unravel_index(i, [2] * w)` in C order: the `w` binary digits of `i`,
most significant first.  Callers check `i < 2 ^ w`. -/
def unravel2 : Nat → Nat → List Nat
  | 0, _ => []
  | w + 1, i => (i / 2 ^ w) :: unravel2 w (i % 2 ^ w)

/-- Effect of a Python list comprehension over a fallible elementwise
operation: the first failure aborts the whole computation. -/
def mapOpt {α β : Type} (f : α → Option β) : List α → Option (List β)
  | [] => some []
  | x :: xs =>
    match f x, mapOpt f xs with
    | some y, some ys => some (y :: ys)
    | _, _ => none

/-- `HQSDevice.generate_samples` of `pennylane_honeywell/device.py`: parse each
result bitstring in base 2, then unravel each value into `numWires` binary
digits (one row per result, one column per wire).  `none` models the raised
`ValueError` when a string fails to parse or an index is out of range for
shape `[2] * numWires`. -/
def generate_samples (results : List String) (numWires : Nat) :
    Option (List (List Nat)) :=
  match mapOpt int_base2 results with
  | none => none
  | some intValues =>
    if intValues.all (fun i => i < 2 ^ numWires) then
      some (intValues.map (unravel2 numWires))
    else none

/-- `HQSDevice.generate_samples` of the earlier fork `pennylane_hqs/device.py`:
identical except the result strings are parsed with `int(x)` in base 10. -/
def generate_samples_hqs (results : List String) (numWires : Nat) :
    Option (List (List Nat)) :=
  match mapOpt int_base10 results with
  | none => none
  | some intValues =>
    if intValues.all (fun i => i < 2 ^ numWires) then
      some (intValues.map (unravel2 numWires))
    else none

/-- Reading a row most-significant-bit-first as a base-2 integer. -/
def bitsToNatAux (acc : Nat) : List Nat → Nat
  | [] => acc
  | b :: bs => bitsToNatAux (2 * acc + b) bs

/-- Value of a sample row read most-significant-bit-first in base 2. -/
def bits_to_nat (row : List Nat) : Nat := bitsToNatAux 0 row

theorem unravel2_length (w i : Nat) : (unravel2 w i).length = w := by
  induction w generalizing i with
  | zero => rfl
  | succ w ih => simp [unravel2, ih]

theorem unravel2_le_one (w i : Nat) (hi : i < 2 ^ w) :
    ∀ b ∈ unravel2 w i, b ≤ 1 := by
  induction w generalizing i with
  | zero => intro b hb; simp [unravel2] at hb
  | succ w ih =>
    intro b hb
    simp only [unravel2, List.mem_cons] at hb
    rcases hb with hb | hb
    · subst hb
      have h2 : i / 2 ^ w < 2 := by
        apply Nat.div_lt_of_lt_mul
        simpa [Nat.pow_succ] using hi
      omega
    · exact ih (i % 2 ^ w) (Nat.mod_lt _ (Nat.pos_pow_of_pos w (by norm_num))) b hb

theorem bitsToNatAux_unravel2 (w : Nat) :
    ∀ i acc, i < 2 ^ w → bitsToNatAux acc (unravel2 w i) = acc * 2 ^ w + i := by
  induction w with
  | zero =>
    intro i acc hi
    interval_cases i
    simp [unravel2, bitsToNatAux]
  | succ w ih =>
    intro i acc hi
    have hmod : i % 2 ^ w < 2 ^ w := Nat.mod_lt _ (Nat.pos_pow_of_pos w (by norm_num))
    have hdm := Nat.div_add_mod i (2 ^ w)
    calc bitsToNatAux acc (unravel2 (w + 1) i)
        = bitsToNatAux (2 * acc + i / 2 ^ w) (unravel2 w (i % 2 ^ w)) := rfl
      _ = (2 * acc + i / 2 ^ w) * 2 ^ w + i % 2 ^ w := ih (i % 2 ^ w) _ hmod
      _ = acc * 2 ^ (w + 1) + (2 ^ w * (i / 2 ^ w) + i % 2 ^ w) := by ring
      _ = acc * 2 ^ (w + 1) + i := by rw [hdm]

/-- Round trip: reading an unravelled row most-significant-bit-first recovers
the integer. -/
theorem bits_to_nat_unravel2 (w i : Nat) (hi : i < 2 ^ w) :
    bits_to_nat (unravel2 w i) = i := by
  simpa [bits_to_nat] using bitsToNatAux_unravel2 w i 0 hi

theorem parseBinList_lt (l : List Char) :
    ∀ acc, parseBinList acc l < (acc + 1) * 2 ^ l.length := by
  induction l with
  | nil => intro acc; simp [parseBinList]
  | cons c cs ih =>
    intro acc
    have hb : bitVal c ≤ 1 := by unfold bitVal; split <;> omega
    calc parseBinList acc (c :: cs)
        = parseBinList (2 * acc + bitVal c) cs := rfl
      _ < (2 * acc + bitVal c + 1) * 2 ^ cs.length := ih _
      _ ≤ ((acc + 1) * 2) * 2 ^ cs.length := by
          apply Nat.mul_le_mul_right
          omega
      _ = (acc + 1) * 2 ^ (c :: cs).length := by
          simp [List.length_cons, Nat.pow_succ]; ring

theorem int_base2_of_bits (s : String) (hne : s.data ≠ [])
    (hbits : ∀ c ∈ s.data, isBitChar c = true) :
    int_base2 s = some (parseBinList 0 s.data) := by
  have h1 : s.data.all isBitChar = true := List.all_eq_true.mpr hbits
  have h2 : s.data.isEmpty = false := by simpa [List.isEmpty_iff] using hne
  simp [int_base2, h1, h2]

theorem mapOpt_eq_map {α β : Type} (f : α → Option β) (g : α → β)
    (l : List α) (h : ∀ x ∈ l, f x = some (g x)) :
    mapOpt f l = some (l.map g) := by
  induction l with
  | nil => rfl
  | cons x xs ih =>
    have hx : f x = some (g x) := h x (List.mem_cons_self x xs)
    have hxs : mapOpt f xs = some (xs.map g) :=
      ih fun y hy => h y (List.mem_cons_of_mem x hy)
    simp [mapOpt, hx, hxs]

/-! ## Job records, result extraction and polling (`HQSDevice.execute`,
`HQSDevice._query_results`, `HQSDevice.TERMINAL_STATUSES`) -/

/-- The parsed JSON of a job response: its `status` string and, when the
`results`/`c` keys are present, the list of result bitstrings.  `results =
none` models a payload in which `job_data["results"]["c"]` raises `KeyError`. -/
structure JobData where
  status : String
  results : Option (List String)
deriving DecidableEq

/-- `HQSDevice.TERMINAL_STATUSES` (line 119). -/
def TERMINAL_STATUSES : List String := ["failed", "completed", "cancelled"]

/-- Outcome of the result-extraction section of `HQSDevice.execute`
(lines 458-473): which exception is raised, whether the partial-results
warning is emitted, and which result list is stored in `self._results`. -/
inductive ExtractOutcome where
  /-- `DeviceError("Job failed in remote backend.")`. -/
  | jobFailed
  /-- `DeviceError("Job was cancelled without returning any results.")`. -/
  | cancelledNoResults
  /-- Success after `warnings.warn("Partial results returned ...")`. -/
  | partialWarning (rs : List String)
  /-- Silent success storing `rs` in `self._results`. -/
  | ok (rs : List String)
  /-- Unhandled `KeyError` from `job_data["results"]["c"]` outside the
  cancelled branch. -/
  | keyError
deriving DecidableEq

/-- `HQSDevice.execute` lines 458-473: the `failed` check, the `cancelled`
branch whose bare `except:` turns both a missing payload (`KeyError`) and a
zero count (`AssertionError`) into the cancelled-without-results error, the
partial-results warning when fewer than `self.shots` results came back, and
the final `self._results = job_data["results"]["c"]` assignment. -/
def extract_results (shots : Nat) (jd : JobData) : ExtractOutcome :=
  if jd.status = "failed" then ExtractOutcome.jobFailed
  else if jd.status = "cancelled" then
    match jd.results with
    | none => ExtractOutcome.cancelledNoResults
    | some rs =>
      if rs.length = 0 then ExtractOutcome.cancelledNoResults
      else if rs.length < shots then ExtractOutcome.partialWarning rs
      else ExtractOutcome.ok rs
  else
    match jd.results with
    | none => ExtractOutcome.keyError
    | some rs => ExtractOutcome.ok rs

/-- `HQSDevice._query_results` lines 439-446, with the remote server modelled
as the stream `env` of parsed GET responses (`env k` is the body of the
`k`-th poll) and the unbounded `while` loop rendered with explicit fuel:
`none` means the loop has not reached a terminal status within `fuel`
iterations.  Each iteration sleeps for the retry delay, fetches the job
endpoint and replaces the job record, exactly as in the source. -/
def query_results (env : Nat → JobData) (fuel : Nat) (k : Nat)
    (jd : JobData) : Option JobData :=
  if jd.status ∈ TERMINAL_STATUSES then some jd
  else
    match fuel with
    | 0 => none
    | f + 1 => query_results env f (k + 1) (env k)

/-! ## Credential manager (`HQSDevice._refresh_access_token`,
`HQSDevice._login`, `HQSDevice.get_valid_access_token`) -/

/-- An HTTP response from the authentication endpoint, reduced to the fields
the code reads: the status code and the `id-token` / `refresh-token` entries
of the JSON body. -/
structure HttpResp where
  status : Nat
  idToken : String
  refToken : String

/-- The exceptions the credential manager can raise. -/
inductive AuthError where
  /-- `ExpiredRefreshTokenError("Invalid refresh token was used.")`. -/
  | expiredRefreshToken
  /-- `RequestFailedError("Failed to get access token: ...")`. -/
  | requestFailed
  /-- `ValueError("No username for HQS platform found when trying to login.")`. -/
  | valueError
deriving DecidableEq

/-- `HQSDevice._refresh_access_token` lines 297-311: POST the stored refresh
token; on 200 return the body's `id-token`, on 400 or 403 raise
`ExpiredRefreshTokenError`, on any other status raise `RequestFailedError`. -/
def refresh_access_token (resp : HttpResp) : Except AuthError String :=
  if resp.status = 200 then Except.ok resp.idToken
  else if resp.status = 400 ∨ resp.status = 403 then
    Except.error AuthError.expiredRefreshToken
  else Except.error AuthError.requestFailed

/-- One network request made by the credential manager. -/
inductive NetCall where
  /-- The POST of `_refresh_access_token`. -/
  | refreshPost
  /-- The POST of `_login`. -/
  | loginPost
deriving DecidableEq

/-- The token pair held by the device (`self._access_token`,
`self._refresh_token`). -/
structure Tokens where
  access : Option String
  refresh : Option String
deriving DecidableEq

/-- The environment of `get_valid_access_token`: the verdict of
`token_is_expired` on decodable tokens, the responses the authentication
endpoint would give to the refresh and login POSTs, and the configured user
(`self._user`). -/
structure AuthEnv where
  isExpired : String → Bool
  refreshResp : HttpResp
  loginResp : HttpResp
  user : Option String

/-- `HQSDevice._login` lines 244-263: raise `ValueError` when no user is
configured (before any network traffic), otherwise POST the credentials; on
200 return the `id-token` / `refresh-token` pair, otherwise raise
`RequestFailedError`.  The second component records the POST when it was
made. -/
def login_request (env : AuthEnv) :
    (Except AuthError (String × String)) × List NetCall :=
  match env.user with
  | none => (Except.error AuthError.valueError, [])
  | some _ =>
    if env.loginResp.status = 200 then
      (Except.ok (env.loginResp.idToken, env.loginResp.refToken),
       [NetCall.loginPost])
    else (Except.error AuthError.requestFailed, [NetCall.loginPost])

/-- The login fallback of `get_valid_access_token` (lines 344-346): call
`_login`, store both new tokens and persist them.  On an exception the token
state is unchanged. -/
def login_and_store (env : AuthEnv) (st : Tokens) (calls : List NetCall) :
    (Except AuthError String) × Tokens × List NetCall :=
  match login_request env with
  | (Except.ok (a, r), made) =>
    (Except.ok a, ⟨some a, some r⟩, calls ++ made)
  | (Except.error e, made) => (Except.error e, st, calls ++ made)

/-- The refresh-then-login branch of `get_valid_access_token` (lines
337-346), entered when the access token is missing or expired: if a refresh
token is held, try `_refresh_access_token`, storing the new access token on
success, clearing the refresh token on `ExpiredRefreshTokenError` and
propagating any other exception; then, if no refresh token is held (either
because none was stored or because the refresh was rejected), fall back to
`_login`. -/
def renew_tokens (env : AuthEnv) (st : Tokens) :
    (Except AuthError String) × Tokens × List NetCall :=
  match st.refresh with
  | some _ =>
    match refresh_access_token env.refreshResp with
    | Except.ok tok =>
      (Except.ok tok, ⟨some tok, st.refresh⟩, [NetCall.refreshPost])
    | Except.error AuthError.expiredRefreshToken =>
      login_and_store env ⟨st.access, none⟩ [NetCall.refreshPost]
    | Except.error e => (Except.error e, st, [NetCall.refreshPost])
  | none => login_and_store env st []

/-- `HQSDevice.get_valid_access_token` lines 336-348: when an unexpired
access token is held return it unchanged, otherwise renew via refresh and/or
login.  Returns the raised exception or the access token, the new token
state, and the trace of network calls made. -/
def get_valid_access_token (env : AuthEnv) (st : Tokens) :
    (Except AuthError String) × Tokens × List NetCall :=
  match st.access with
  | some tok =>
    if env.isExpired tok then renew_tokens env st
    else (Except.ok tok, st, [])
  | none => renew_tokens env st

/-! ## Construction-time shot validation (`HQSDevice.__init__` lines
134-142) -/

/-- The two distinct `ValueError`s of `HQSDevice.__init__`. -/
inductive InitError where
  /-- "The honeywell.hqs device does not support analytic expectation
  values". -/
  | analyticNotSupported
  /-- "Honeywell only supports shots to be between 1 and 10,000 when running
  a job.". -/
  | shotsOutOfRange
deriving DecidableEq

/-- The shot validation of `HQSDevice.__init__`: `shots is None` is checked
first and raises the analytic error; then `shots < 1 or shots > 10000`
raises the range error. -/
def validate_shots (shots : Option Int) : Except InitError Unit :=
  match shots with
  | none => Except.error InitError.analyticNotSupported
  | some s =>
    if s < 1 ∨ s > 10000 then Except.error InitError.shotsOutOfRange
    else Except.ok ()

/-! ## User-identity resolution (`HQSDevice.set_api_configs` lines 168-179) -/

/-- Python truthiness-based `or` on an optional string: `None` and the empty
string are falsy. -/
def pyOr (a b : Option String) : Option String :=
  match a with
  | some s => if s = "" then b else some s
  | none => b

/-- Python truthiness of an optional string. -/
def pyTruthy (a : Option String) : Bool :=
  match a with
  | some s => !(s = "")
  | none => false

/-- `HQSDevice.set_api_configs`: `self._user = self._user or
os.getenv("HQS_USER")`; then, if still falsy, `config.safe_get(config._config,
*["honeywell", "global", "user_email"])` is evaluated but its value is
discarded — no assignment to `self._user` takes place, so the configuration
document's `user_email` never reaches `self._user`. -/
def set_api_configs_user (arg envVar configVal : Option String) :
    Option String :=
  let resolved := pyOr arg envVar
  if pyTruthy resolved then resolved
  else
    let _lookedUp := configVal
    resolved

/-! ## Token expiry (`HQSDevice.token_is_expired` lines 193-202) -/

/-- The result of `jwt.decode(token, options={"verify_signature": False},
algorithms=["RS256"])`: either a `jwt.DecodeError` or the decoded claim
mapping.  Claim values are modelled as timestamps. -/
inductive JWTResult where
  | decodeError
  | payload (claims : List (String × Int))

/-- What `token_is_expired` can raise. -/
inductive TokenError where
  /-- `InvalidJWTError("Invalid JWT token received.")`. -/
  | invalidJWT
  /-- The unhandled `KeyError` from `[...]["exp"]` when the payload decodes
  but has no `exp` claim: the `except` clause only catches
  `jwt.DecodeError`. -/
  | keyError
deriving DecidableEq

/-- `HQSDevice.token_is_expired`: decode the token, read its `exp` claim and
compare with the current UTC timestamp `now`; a `jwt.DecodeError` becomes
`InvalidJWTError`, a missing `exp` claim escapes as `KeyError`. -/
def token_is_expired (decoded : JWTResult) (now : Int) :
    Except TokenError Bool :=
  match decoded with
  | JWTResult.decodeError => Except.error TokenError.invalidJWT
  | JWTResult.payload claims =>
    match claims.lookup "exp" with
    | none => Except.error TokenError.keyError
    | some exp => Except.ok (decide (exp < now))

/-! ## Additional helper lemmas -/

theorem mapOpt_congr {α β : Type} (f g : α → Option β) (l : List α)
    (h : ∀ x ∈ l, f x = g x) : mapOpt f l = mapOpt g l := by
  induction l with
  | nil => rfl
  | cons x xs ih =>
    have hx : f x = g x := h x (List.mem_cons_self x xs)
    have hxs : mapOpt f xs = mapOpt g xs :=
      ih fun y hy => h y (List.mem_cons_of_mem x hy)
    simp [mapOpt, hx, hxs]

/-! ## Claim theorems -/

/-- Claim C2: for every positive wire count `w` and every list of
`w`-character bitstrings, `generate_samples` returns a matrix with one row
per bitstring and `w` columns, all entries 0 or 1, and each row read
most-significant-bit-first in base 2 equals the integer value of the
corresponding input bitstring parsed in base 2. -/
theorem C2_generate_samples_shape_and_values (results : List String) (w : Nat)
    (hw : 0 < w)
    (hall : ∀ s ∈ results, s.data.length = w ∧ ∀ c ∈ s.data, isBitChar c = true) :
    ∃ m, generate_samples results w = some m ∧
      m.length = results.length ∧
      (∀ row ∈ m, row.length = w ∧ ∀ b ∈ row, b ≤ 1) ∧
      (∀ k : Nat, (m[k]?).map bits_to_nat =
        (results[k]?).map fun s : String => parseBinList 0 s.data) := by
  have hparse : ∀ s ∈ results, int_base2 s = some (parseBinList 0 s.data) := by
    intro s hs
    have hlen := (hall s hs).1
    have hne : s.data ≠ [] := by
      intro hcontra
      rw [hcontra] at hlen
      simp at hlen
      omega
    exact int_base2_of_bits s hne (hall s hs).2
  have hmap : mapOpt int_base2 results =
      some (results.map fun s => parseBinList 0 s.data) :=
    mapOpt_eq_map _ _ _ hparse
  have hbound : ∀ i ∈ results.map (fun s => parseBinList 0 s.data), i < 2 ^ w := by
    intro i hi
    rcases List.mem_map.mp hi with ⟨s, hs, rfl⟩
    have := parseBinList_lt s.data 0
    rw [(hall s hs).1] at this
    simpa using this
  refine ⟨(results.map fun s => parseBinList 0 s.data).map (unravel2 w), ?_, ?_, ?_, ?_⟩
  · simp only [generate_samples, hmap]
    rw [if_pos (List.all_eq_true.mpr fun i hi => decide_eq_true (hbound i hi))]
  · simp
  · intro row hrow
    rcases List.mem_map.mp hrow with ⟨i, hi, rfl⟩
    exact ⟨unravel2_length w i, unravel2_le_one w i (hbound i hi)⟩
  · intro k
    by_cases hk : k < results.length
    · have hsome : results[k]? = some (results.get ⟨k, hk⟩) := by
        simp [List.getElem?_eq_getElem hk]
      have hmem : results.get ⟨k, hk⟩ ∈ results := List.get_mem results k hk
      have hval : parseBinList 0 (results.get ⟨k, hk⟩).data < 2 ^ w :=
        hbound _ (List.mem_map.mpr ⟨_, hmem, rfl⟩)
      have hrow : ((results.map fun s : String => parseBinList 0 s.data).map
          (unravel2 w))[k]? =
          some (unravel2 w (parseBinList 0 (results.get ⟨k, hk⟩).data)) := by
        simp [List.getElem?_map, hsome]
      rw [hrow, hsome]
      simp
      exact bits_to_nat_unravel2 w _ hval
    · have hnone : results[k]? = none := by
        simp [List.getElem?_eq_none (Nat.le_of_not_lt hk)]
      simp [List.map_map, List.getElem?_map, hnone]

/-- Witness for C2 at the concrete input `["101", "010"]` with three wires. -/
theorem C2_witness :
    ∃ m, generate_samples ["101", "010"] 3 = some m ∧
      m.length = (["101", "010"] : List String).length ∧
      (∀ row ∈ m, row.length = 3 ∧ ∀ b ∈ row, b ≤ 1) ∧
      (∀ k : Nat, (m[k]?).map bits_to_nat =
        ((["101", "010"] : List String)[k]?).map fun s : String =>
          parseBinList 0 s.data) :=
  C2_generate_samples_shape_and_values ["101", "010"] 3 (by decide) (by decide)

/-- Claim C3 as stated is false: the two forks do not implement the same
sample-generation function.  On the single bitstring `"0010"` with four
wires, the `pennylane_hqs` fork parses the string in base 10 (value ten) and
produces the row `[1, 0, 1, 0]`, while the `pennylane_honeywell` fork parses
it in base 2 (value two) and produces `[0, 0, 1, 0]`. -/
theorem C3_counterexample :
    generate_samples_hqs ["0010"] 4 ≠ generate_samples ["0010"] 4 := by decide

/-- Claim C3 amended: the two forks agree exactly where the base-10 and
base-2 parses of every result string coincide (for instance on bitstrings
denoting 0 or 1); in general `pennylane_hqs` parses the result strings in
base 10 and so computes different samples. -/
theorem C3_amended_agreement (results : List String) (w : Nat)
    (h : ∀ s ∈ results, int_base10 s = int_base2 s) :
    generate_samples_hqs results w = generate_samples results w := by
  have hmm : mapOpt int_base10 results = mapOpt int_base2 results :=
    mapOpt_congr _ _ _ h
  simp only [generate_samples_hqs, generate_samples, hmm]

/-- Witness for the amended C3 at the concrete input `["01"]` with two
wires. -/
theorem C3_amended_witness :
    generate_samples_hqs ["01"] 2 = generate_samples ["01"] 2 :=
  C3_amended_agreement ["01"] 2 (by decide)

/-- Claim C4: whenever the terminal job record has status `"failed"`, result
extraction raises the job-failed `DeviceError`, whatever the result payload
holds. -/
theorem C4_failed_always_raises (shots : Nat) (jd : JobData)
    (h : jd.status = "failed") :
    extract_results shots jd = ExtractOutcome.jobFailed := by
  simp [extract_results, h]

/-- Witness for C4: a failed job carrying a nonempty payload still raises. -/
theorem C4_witness :
    extract_results 10 ⟨"failed", some ["000", "001"]⟩ = ExtractOutcome.jobFailed :=
  C4_failed_always_raises 10 ⟨"failed", some ["000", "001"]⟩ rfl

/-- Claim C5: for a cancelled job, a missing or empty result payload raises
the cancelled-without-results `DeviceError`; a nonempty payload with fewer
results than the configured shot count succeeds with the partial-results
warning, returning exactly the results present; a payload with at least the
shot count succeeds silently. -/
theorem C5_cancelled_extraction (shots : Nat) (jd : JobData)
    (hs : 0 < shots) (h : jd.status = "cancelled") :
    ((jd.results = none ∨ jd.results = some []) →
      extract_results shots jd = ExtractOutcome.cancelledNoResults) ∧
    (∀ rs, jd.results = some rs → 0 < rs.length → rs.length < shots →
      extract_results shots jd = ExtractOutcome.partialWarning rs) ∧
    (∀ rs, jd.results = some rs → shots ≤ rs.length →
      extract_results shots jd = ExtractOutcome.ok rs) := by
  refine ⟨?_, ?_, ?_⟩
  · rintro (hr | hr) <;> simp [extract_results, h, hr]
  · intro rs hr h0 hlt
    simp [extract_results, h, hr, Nat.pos_iff_ne_zero.mp h0, hlt]
  · intro rs hr hge
    have h0 : rs.length ≠ 0 := by omega
    simp [extract_results, h, hr, h0, Nat.not_lt.mpr hge]

/-- Witness for C5: 3 of 10 expected shots from a cancelled job succeed with
the partial-results warning, returning exactly those 3 results. -/
theorem C5_witness :
    extract_results 10 ⟨"cancelled", some ["000", "001", "010"]⟩ =
      ExtractOutcome.partialWarning ["000", "001", "010"] :=
  (C5_cancelled_extraction 10 ⟨"cancelled", some ["000", "001", "010"]⟩
      (by decide) rfl).2.1
    ["000", "001", "010"] rfl (by decide) (by decide)

/-- Claim C1: when an unexpired access token is held, `get_valid_access_token`
returns it unchanged with no network call; when the access token is missing or
expired and a refresh token is held, the refresh POST is made exactly once,
and if it succeeds login is not called and the refreshed token is returned;
when the refresh is rejected as expired, or no refresh token is held, login is
called exactly once (given a configured user) and, when it succeeds, its new
access token is returned. -/
theorem C1_get_valid_access_token_state_machine (env : AuthEnv) (st : Tokens) :
    (∀ t, st.access = some t → env.isExpired t = false →
      get_valid_access_token env st = (Except.ok t, st, [])) ∧
    ((st.access = none ∨ ∃ t, st.access = some t ∧ env.isExpired t = true) →
      (((∃ r, st.refresh = some r) →
        ((get_valid_access_token env st).2.2.count NetCall.refreshPost = 1 ∧
          (env.refreshResp.status = 200 →
            NetCall.loginPost ∉ (get_valid_access_token env st).2.2 ∧
            (get_valid_access_token env st).1 =
              Except.ok env.refreshResp.idToken))) ∧
      ((st.refresh = none ∨
          (∃ r, st.refresh = some r) ∧
            refresh_access_token env.refreshResp =
              Except.error AuthError.expiredRefreshToken) →
        (∃ u, env.user = some u) →
        ((get_valid_access_token env st).2.2.count NetCall.loginPost = 1 ∧
          (env.loginResp.status = 200 →
            (get_valid_access_token env st).1 =
              Except.ok env.loginResp.idToken))))) := by
  constructor
  · intro t ht hexp
    simp [get_valid_access_token, ht, hexp]
  · intro hinvalid
    have hgo : get_valid_access_token env st = renew_tokens env st := by
      rcases hinvalid with hnone | ⟨t, ht, hexp⟩
      · simp [get_valid_access_token, hnone]
      · simp [get_valid_access_token, ht, hexp]
    rw [hgo]
    constructor
    · rintro ⟨r, hr⟩
      constructor
      · have htr : (renew_tokens env st).2.2 = [NetCall.refreshPost] ∨
            (renew_tokens env st).2.2 =
              [NetCall.refreshPost, NetCall.loginPost] := by
          simp only [renew_tokens, hr]
          cases refresh_access_token env.refreshResp with
          | ok tok => left; rfl
          | error e =>
            cases e with
            | expiredRefreshToken =>
              simp only [login_and_store, login_request]
              cases env.user with
              | none => left; rfl
              | some u =>
                by_cases hl : env.loginResp.status = 200
                · right; simp [hl]
                · right; simp [hl]
            | requestFailed => left; rfl
            | valueError => left; rfl
        rcases htr with htr | htr <;> rw [htr] <;> decide
      · intro h200
        have hres : refresh_access_token env.refreshResp =
            Except.ok env.refreshResp.idToken := by
          simp [refresh_access_token, h200]
        simp [renew_tokens, hr, hres]
    · intro hfall ⟨u, hu⟩
      have hlogin : renew_tokens env st =
          login_and_store env ⟨st.access, none⟩ [NetCall.refreshPost] ∨
          renew_tokens env st = login_and_store env st [] := by
        rcases hfall with hnone | ⟨⟨r, hr⟩, hexp⟩
        · right
          simp [renew_tokens, hnone]
        · left
          simp [renew_tokens, hr, hexp]
      have hstore : ∀ st0 calls,
          (login_and_store env st0 calls).2.2 = calls ++ [NetCall.loginPost] ∧
          (env.loginResp.status = 200 →
            (login_and_store env st0 calls).1 =
              Except.ok env.loginResp.idToken) := by
        intro st0 calls
        by_cases hl : env.loginResp.status = 200 <;>
          simp [login_and_store, login_request, hu, hl]
      rcases hlogin with heq | heq <;> rw [heq]
      · refine ⟨?_, (hstore _ _).2⟩
        rw [(hstore _ _).1]
        decide
      · refine ⟨?_, (hstore _ _).2⟩
        rw [(hstore _ _).1]
        decide

/-- Witness for C1: expired access token, refresh POST rejected with 400,
login succeeding with a new token; the trace holds exactly one refresh POST
followed by exactly one login POST, and the login token is returned. -/
theorem C1_witness :
    (get_valid_access_token
        ⟨fun _ => true, ⟨400, "n", "nr"⟩, ⟨200, "l", "lr"⟩, some "u"⟩
        ⟨some "tok", some "r"⟩).2.2.count NetCall.loginPost = 1 ∧
    ((200 : Nat) = 200 →
      (get_valid_access_token
          ⟨fun _ => true, ⟨400, "n", "nr"⟩, ⟨200, "l", "lr"⟩, some "u"⟩
          ⟨some "tok", some "r"⟩).1 = Except.ok "l") :=
  ((C1_get_valid_access_token_state_machine
      ⟨fun _ => true, ⟨400, "n", "nr"⟩, ⟨200, "l", "lr"⟩, some "u"⟩
      ⟨some "tok", some "r"⟩).2
    (Or.inr ⟨"tok", rfl, rfl⟩)).2
    (Or.inr ⟨⟨"r", rfl⟩, rfl⟩) ⟨"u", rfl⟩

/-- Claim C6: the refresh request yields the body's new access token on HTTP
200, raises `ExpiredRefreshTokenError` on 400 or 403, and raises
`RequestFailedError` on every other non-200 status. -/
theorem C6_refresh_response_handling (resp : HttpResp) :
    (resp.status = 200 → refresh_access_token resp = Except.ok resp.idToken) ∧
    (resp.status = 400 ∨ resp.status = 403 →
      refresh_access_token resp = Except.error AuthError.expiredRefreshToken) ∧
    (resp.status ≠ 200 → resp.status ≠ 400 → resp.status ≠ 403 →
      refresh_access_token resp = Except.error AuthError.requestFailed) := by
  refine ⟨fun h200 => by simp [refresh_access_token, h200], fun h4x => ?_,
    fun h1 h2 h3 => ?_⟩
  · have hne : resp.status ≠ 200 := by omega
    simp [refresh_access_token, hne, h4x]
  · simp [refresh_access_token, h1]
    omega

/-- Witness for C6: a 403 response raises `ExpiredRefreshTokenError`. -/
theorem C6_witness :
    refresh_access_token ⟨403, "a", "b"⟩ =
      Except.error AuthError.expiredRefreshToken :=
  (C6_refresh_response_handling ⟨403, "a", "b"⟩).2.1 (Or.inr rfl)

/-- Claim C7: a `None` shot count raises the distinct analytic-not-supported
error (this check runs first, so `None` never reaches the range comparison),
a shot count outside `[1, 10000]` raises the range validation error, and a
shot count inside the range is accepted. -/
theorem C7_shot_validation :
    validate_shots none = Except.error InitError.analyticNotSupported ∧
    InitError.analyticNotSupported ≠ InitError.shotsOutOfRange ∧
    (∀ s : Int, s < 1 ∨ 10000 < s →
      validate_shots (some s) = Except.error InitError.shotsOutOfRange) ∧
    (∀ s : Int, 1 ≤ s → s ≤ 10000 → validate_shots (some s) = Except.ok ()) := by
  refine ⟨rfl, by decide, fun s hs => ?_, fun s h1 h2 => ?_⟩
  · have : s < 1 ∨ s > 10000 := hs
    simp [validate_shots, this]
  · have : ¬(s < 1 ∨ s > 10000) := by omega
    simp [validate_shots, this]

/-- Witness for C7: shot count 0 is rejected with the range error and shot
count 1000 is accepted. -/
theorem C7_witness :
    validate_shots (some 0) = Except.error InitError.shotsOutOfRange ∧
    validate_shots (some 1000) = Except.ok () :=
  ⟨C7_shot_validation.2.2.1 0 (Or.inl (by norm_num)),
   C7_shot_validation.2.2.2 1000 (by norm_num) (by norm_num)⟩

/-- Claim C8 describes the documented intent, but the code drops the last
fallback: `set_api_configs` evaluates `config.safe_get(config._config,
*["honeywell", "global", "user_email"])` and discards the result, so when
neither the constructor argument nor `HQS_USER` supplies an identity the
configuration document's `user_email` is never used — the resolved user stays
unset whatever the document holds. -/
theorem C8_config_identity_discarded (cfg : Option String) :
    set_api_configs_user none none cfg = none := rfl

/-- Claim C9: the polling loop of `_query_results` exits exactly on the three
case-sensitive terminal statuses `"failed"`, `"completed"`, `"cancelled"`
(immediately, with no further request); on any other status it performs
another iteration, re-fetching the job record; and no iteration bound exists:
against a server that never reports a terminal status the loop never
terminates, whatever fuel it is given. -/
theorem C9_polling_terminal_behavior (env : Nat → JobData) :
    (∀ s : String, s ∈ TERMINAL_STATUSES ↔
      (s = "failed" ∨ s = "completed" ∨ s = "cancelled")) ∧
    (∀ fuel k jd, jd.status ∈ TERMINAL_STATUSES →
      query_results env fuel k jd = some jd) ∧
    (∀ fuel k jd, jd.status ∉ TERMINAL_STATUSES →
      query_results env (fuel + 1) k jd = query_results env fuel (k + 1) (env k)) ∧
    (∀ fuel k jd, jd.status ∉ TERMINAL_STATUSES →
      (∀ n, (env n).status ∉ TERMINAL_STATUSES) →
      query_results env fuel k jd = none) := by
  refine ⟨fun s => by simp [TERMINAL_STATUSES], fun fuel k jd ht => ?_,
    fun fuel k jd ht => ?_, fun fuel => ?_⟩
  · cases fuel <;> simp [query_results, ht]
  · simp [query_results, ht]
  · induction fuel with
    | zero => intro k jd ht henv; simp [query_results, ht]
    | succ f ih =>
      intro k jd ht henv
      rw [query_results, if_neg ht]
      exact ih (k + 1) (env k) (henv k) henv

/-- Witness for C9: a job record stuck at status `"queued"` against a server
that always answers `"queued"` has not terminated after seven iterations. -/
theorem C9_witness :
    query_results (fun _ => ⟨"queued", none⟩) 7 0 ⟨"queued", none⟩ = none :=
  (C9_polling_terminal_behavior (fun _ => ⟨"queued", none⟩)).2.2.2 7 0
    ⟨"queued", none⟩ (by decide) (fun _ => by decide)

/-- Claim C10: `token_is_expired` raises `InvalidJWTError` exactly for tokens
whose decoding fails; a token that decodes but lacks an `exp` claim escapes
with an unhandled `KeyError` instead; and a decodable token with an `exp`
claim is reported expired precisely when its expiry timestamp is strictly
below the current UTC time. -/
theorem C10_token_is_expired_behavior :
    (∀ d now, token_is_expired d now = Except.error TokenError.invalidJWT →
      d = JWTResult.decodeError) ∧
    (∀ now, token_is_expired JWTResult.decodeError now =
      Except.error TokenError.invalidJWT) ∧
    (∀ claims now, claims.lookup "exp" = none →
      token_is_expired (JWTResult.payload claims) now =
        Except.error TokenError.keyError) ∧
    (∀ claims now e, claims.lookup "exp" = some e →
      (token_is_expired (JWTResult.payload claims) now = Except.ok true ↔
        e < now)) := by
  refine ⟨fun d now hd => ?_, fun now => rfl, fun claims now hl => ?_,
    fun claims now e hl => ?_⟩
  · cases d with
    | decodeError => rfl
    | payload claims =>
      simp only [token_is_expired] at hd
      cases hlook : claims.lookup "exp" with
      | none => rw [hlook] at hd; exact absurd hd (by simp)
      | some e => rw [hlook] at hd; exact absurd hd (by simp)
  · simp [token_is_expired, hl]
  · simp [token_is_expired, hl]

/-- Witness for C10: a payload whose `exp` claim reads 100 is expired at UTC
time 200. -/
theorem C10_witness :
    token_is_expired (JWTResult.payload [("exp", 100)]) 200 = Except.ok true :=
  (C10_token_is_expired_behavior.2.2.2 [("exp", 100)] 200 100 rfl).mpr
    (by norm_num)

end HQS
